import Mathlib

/-!
Verification development for the competitor price-tracking core
(`price_tracker_core.py`): the canonical product record, its construction
from raw JSON-style mappings (pydantic model `ProductRanking`), the batch
fetch wrapper (`TrovaprezziClient.get_offers_ranking`), and the enrichment
engine (`PriceIntelligenceEngine.enrich_data`).

Monetary amounts (Python floats) are modelled as exact rationals; machine
integers as `Int`.  Exceptions are modelled with `Except`: a function that
never returns `Except.error` cannot throw.
-/

namespace PriceTracker

/-- JSON-style values as delivered by the feed (the argument of
`ProductRanking(**item)`). -/
inductive JVal : Type where
  | jnull  : JVal
  | jnum   : ℚ → JVal
  | jstr   : String → JVal
  | jbool  : Bool → JVal
  | jarr   : List JVal → JVal
  | jobj   : List (String × JVal) → JVal

/-- A raw field mapping: keys to JSON values (a Python dict). -/
abbrev RawMap : Type := List (String × JVal)

/-- First value bound to key `k` (Python dict lookup; keys are unique in a
dict, so first-match is faithful). -/
def getField (m : RawMap) (k : String) : Option JVal :=
  match m with
  | [] => none
  | (k2, v) :: rest => if k2 = k then some v else getField rest k

/-- `BestOffer`: one competitor quote (`Price`, `Merchant`, optional
`Rating`). -/
structure BestOffer : Type where
  price : ℚ
  merchant : String
  rating : Option ℚ
deriving Repr, DecidableEq

/-- `ProductRanking`: the canonical product record.  Field order and names
follow the pydantic model; `timestamp` is the construction-time clock value,
`price_gap` and `is_winning` are the derived fields (defaulted at
construction, populated by the enrichment engine). -/
structure ProductRanking : Type where
  sku : String
  category : String
  product_name : String
  my_price : ℚ
  shipping_cost : ℚ
  total_cost : ℚ
  min_price_market : ℚ
  min_price_shipping_market : ℚ
  rank : ℤ
  rank_with_shipping : ℤ
  competitors_count : ℤ
  offers_count : ℤ
  popularity_index : ℤ
  best_offers : List BestOffer
  timestamp : ℕ
  price_gap : Option ℚ
  is_winning : Bool
deriving Repr, DecidableEq

/-- Python `round(x, 2)`: nearest multiple of 1/100, ties to even
(banker's rounding), on exact rationals. -/
def pyRound2 (q : ℚ) : ℚ :=
  let x : ℚ := 100 * q
  let f : ℤ := Rat.floor x
  let frac : ℚ := x - f
  let r : ℤ :=
    if frac < 1/2 then f
    else if 1/2 < frac then f + 1
    else if f % 2 = 0 then f else f + 1
  (r : ℚ) / 100

/-- One iteration of the `enrich_data` loop body: sets `is_winning` from
`rank_with_shipping` and `price_gap` from the rounded difference of
`total_cost` and `min_price_shipping_market`. -/
def enrichOne (p : ProductRanking) : ProductRanking :=
  { p with
    is_winning := decide (p.rank_with_shipping = 1)
    price_gap := some (pyRound2 (p.total_cost - p.min_price_shipping_market)) }

/-- `PriceIntelligenceEngine.enrich_data`: enrich every record of the batch,
preserving the list structure (the Python loop mutates in place and returns
the same list). -/
def enrich_data : List ProductRanking → List ProductRanking
  | [] => []
  | p :: ps => enrichOne p :: enrich_data ps

/-- The condition of the `logger.warning` call inside the loop, evaluated on
the already-enriched record (the only alert signal the engine produces). -/
def logsAlert (p : ProductRanking) : Bool :=
  !(enrichOne p).is_winning && decide ((enrichOne p).popularity_index ≤ 3)

/-- Error-accumulating application, mirroring pydantic's validation of a
model: every field is validated and a `ValidationError` reports the errors
of all offending fields together. -/
def vapp {α β : Type} :
    Except (List String) (α → β) → Except (List String) α →
    Except (List String) β
  | Except.ok f, Except.ok a => Except.ok (f a)
  | Except.error e1, Except.error e2 => Except.error (e1 ++ e2)
  | Except.error e1, Except.ok _ => Except.error e1
  | Except.ok _, Except.error e2 => Except.error e2

/-- Validate a required `str` field: the key must be present and bound to a
string. -/
def parseStrField (m : RawMap) (k : String) : Except (List String) String :=
  match getField m k with
  | none => Except.error [k ++ ": field required"]
  | some (JVal.jstr s) => Except.ok s
  | some _ => Except.error [k ++ ": not a string"]

/-- Validate a required `float` field: the key must be present and bound to
a number.  Pydantic attaches no range constraint to the model's float
fields, so every number is accepted. -/
def parseFloatField (m : RawMap) (k : String) : Except (List String) ℚ :=
  match getField m k with
  | none => Except.error [k ++ ": field required"]
  | some (JVal.jnum q) => Except.ok q
  | some _ => Except.error [k ++ ": not a number"]

/-- Validate a required `int` field: present, numeric, and integral. -/
def parseIntField (m : RawMap) (k : String) : Except (List String) ℤ :=
  match getField m k with
  | none => Except.error [k ++ ": field required"]
  | some (JVal.jnum q) =>
      if q.den = 1 then Except.ok q.num
      else Except.error [k ++ ": not an integer"]
  | some _ => Except.error [k ++ ": not an integer"]

/-- Validate the optional `Rating` field of a `BestOffer`: absent or null
gives `none`. -/
def parseRatingField (m : RawMap) : Except (List String) (Option ℚ) :=
  match getField m "Rating" with
  | none => Except.ok none
  | some JVal.jnull => Except.ok none
  | some (JVal.jnum q) => Except.ok (some q)
  | some _ => Except.error ["Rating: not a number"]

/-- Construct one `BestOffer` from a raw mapping. -/
def parseBestOffer (m : RawMap) : Except (List String) BestOffer :=
  vapp (vapp (vapp
    (Except.ok (fun price merchant rating =>
      ({ price := price, merchant := merchant, rating := rating } : BestOffer)))
    (parseFloatField m "Price"))
    (parseStrField m "Merchant"))
    (parseRatingField m)

/-- Construct the elements of a `BestOffers` array in order, failing on the
first malformed element (pydantic reports the offending index). -/
def parseBestOfferList : List JVal → Except (List String) (List BestOffer)
  | [] => Except.ok []
  | JVal.jobj m :: rest =>
      match parseBestOffer m with
      | Except.error e => Except.error e
      | Except.ok b =>
          match parseBestOfferList rest with
          | Except.error e => Except.error e
          | Except.ok bs => Except.ok (b :: bs)
  | _ :: _ => Except.error ["BestOffers: element is not an object"]

/-- The `best_offers` field: `default_factory=list` makes an absent key the
empty list, and the `mode='before'` validator `parse_best_offers` turns a
null into the empty list; otherwise the value must be an array of offer
objects. -/
def parseBestOffersField (m : RawMap) : Except (List String) (List BestOffer) :=
  match getField m "BestOffers" with
  | none => Except.ok []
  | some JVal.jnull => Except.ok []
  | some (JVal.jarr xs) => parseBestOfferList xs
  | some _ => Except.error ["BestOffers: not a list"]

/-- `ProductRanking(**item)`: validate every aliased field of the raw
mapping, accumulating the errors of all offending fields; on success build
the record with `timestamp` set to the construction-time clock `now` and the
derived fields at their defaults (`price_gap = None`, `is_winning = False`).
-/
def parseProductRanking (now : ℕ) (m : RawMap) :
    Except (List String) ProductRanking :=
  vapp (vapp (vapp (vapp (vapp (vapp (vapp (vapp (vapp (vapp (vapp (vapp
  (vapp (vapp
    (Except.ok (fun sku category product_name my_price shipping_cost
        total_cost min_price_market min_price_shipping_market rank
        rank_with_shipping competitors_count offers_count popularity_index
        best_offers =>
      ({ sku := sku, category := category, product_name := product_name,
         my_price := my_price, shipping_cost := shipping_cost,
         total_cost := total_cost, min_price_market := min_price_market,
         min_price_shipping_market := min_price_shipping_market,
         rank := rank, rank_with_shipping := rank_with_shipping,
         competitors_count := competitors_count, offers_count := offers_count,
         popularity_index := popularity_index, best_offers := best_offers,
         timestamp := now, price_gap := none,
         is_winning := false } : ProductRanking)))
    (parseStrField m "Sku"))
    (parseStrField m "Category"))
    (parseStrField m "Product"))
    (parseFloatField m "Price"))
    (parseFloatField m "ShippingCost"))
    (parseFloatField m "TotalCost"))
    (parseFloatField m "MinPrice"))
    (parseFloatField m "MinPriceWithShippingCost"))
    (parseIntField m "Rank"))
    (parseIntField m "RankWithShippingCost"))
    (parseIntField m "NbMerchants"))
    (parseIntField m "NbOffers"))
    (parseIntField m "Popularity"))
    (parseBestOffersField m)

/-- The list comprehension `[ProductRanking(**item) for item in raw_data]`:
records are constructed in order and the first `ValidationError` escapes,
aborting the comprehension. -/
def parseAll (now : ℕ) : List RawMap → Except (List String) (List ProductRanking)
  | [] => Except.ok []
  | m :: ms =>
      match parseProductRanking now m with
      | Except.error e => Except.error e
      | Except.ok p =>
          match parseAll now ms with
          | Except.error e => Except.error e
          | Except.ok ps => Except.ok (p :: ps)

/-- `TrovaprezziClient.get_offers_ranking`: `fetch` stands for the outcome
of the token request plus the HTTP download (an `Except.error` when either
raises).  The surrounding `try`/`except Exception` catches every failure —
network, HTTP status, JSON decoding, and any `ValidationError` raised while
constructing the records — and returns the empty list. -/
def get_offers_ranking (now : ℕ) (fetch : Except String (List RawMap)) :
    List ProductRanking :=
  match fetch with
  | Except.error _ => []
  | Except.ok raw_data =>
      match parseAll now raw_data with
      | Except.error _ => []
      | Except.ok ps => ps

/-- The spec's three alert severities. -/
inductive AlertLevel : Type where
  | STABLE : AlertLevel
  | WARNING : AlertLevel
  | CRITICAL : AlertLevel
deriving Repr, DecidableEq

/-- Modelled from the spec (refinement companion, not present in the code):
the alert classification with thresholds `high_priority_popularity_max = 3`
and `critical_gap_threshold = 1.00`, applied to the enriched record. -/
def specAlertLevel (p : ProductRanking) : AlertLevel :=
  let q := enrichOne p
  if q.is_winning = false ∧ q.popularity_index ≤ 3 then
    if 1 < q.price_gap.getD 0 then AlertLevel.CRITICAL else AlertLevel.WARNING
  else AlertLevel.STABLE

/-- Whether construction of a record from a raw mapping succeeds. -/
def parseOk (now : ℕ) (m : RawMap) : Bool :=
  match parseProductRanking now m with
  | Except.ok _ => true
  | Except.error _ => false

/-- The scalar fields of a well-formed raw feed item (the first mock item
of the repository, with its 4.5 rating written as 9/2), without the
`BestOffers` entry. -/
def mBase : RawMap :=
  [("Sku", JVal.jstr "SKU1001A"), ("Category", JVal.jstr "Profumi Donna"),
   ("Product", JVal.jstr "Chanel Coco Mademoiselle EdP 100ml"),
   ("Price", JVal.jnum (1359/10)), ("ShippingCost", JVal.jnum 0),
   ("TotalCost", JVal.jnum (1359/10)), ("MinPrice", JVal.jnum (1349/10)),
   ("MinPriceWithShippingCost", JVal.jnum (1349/10)),
   ("Rank", JVal.jnum 2), ("RankWithShippingCost", JVal.jnum 2),
   ("NbMerchants", JVal.jnum 5), ("NbOffers", JVal.jnum 5),
   ("Popularity", JVal.jnum 1)]

/-- A well-formed raw feed item with one competitor offer. -/
def mGood : RawMap :=
  mBase ++
  [("BestOffers", JVal.jarr
     [JVal.jobj [("Price", JVal.jnum (1349/10)),
                 ("Merchant", JVal.jstr "ProfumoX"),
                 ("Rating", JVal.jnum (9/2))]])]

/-- `mBase` with an explicit null `BestOffers` entry. -/
def mNullBest : RawMap := mBase ++ [("BestOffers", JVal.jnull)]

/-- The record `mGood` constructs to (at clock 0). -/
def recGood : ProductRanking :=
  { sku := "SKU1001A", category := "Profumi Donna",
    product_name := "Chanel Coco Mademoiselle EdP 100ml",
    my_price := 1359/10, shipping_cost := 0, total_cost := 1359/10,
    min_price_market := 1349/10, min_price_shipping_market := 1349/10,
    rank := 2, rank_with_shipping := 2, competitors_count := 5,
    offers_count := 5, popularity_index := 1,
    best_offers := [{ price := 1349/10, merchant := "ProfumoX",
                      rating := some (9/2) }],
    timestamp := 0, price_gap := none, is_winning := false }

/-- The record `mBase` (and `mNullBest`) constructs to: same as `recGood`
but with no offers. -/
def recNoOffers : ProductRanking :=
  { recGood with best_offers := [] }

/-- A raw item whose `TotalCost` (999) disagrees with
`Price + ShippingCost` (1 + 1). -/
def mInconsistent : RawMap :=
  [("Sku", JVal.jstr "SKU-X"), ("Category", JVal.jstr "Cat"),
   ("Product", JVal.jstr "Prod"),
   ("Price", JVal.jnum 1), ("ShippingCost", JVal.jnum 1),
   ("TotalCost", JVal.jnum 999), ("MinPrice", JVal.jnum 1),
   ("MinPriceWithShippingCost", JVal.jnum 1),
   ("Rank", JVal.jnum 1), ("RankWithShippingCost", JVal.jnum 1),
   ("NbMerchants", JVal.jnum 1), ("NbOffers", JVal.jnum 1),
   ("Popularity", JVal.jnum 1)]

/-- The record `mInconsistent` constructs to. -/
def recInconsistent : ProductRanking :=
  { sku := "SKU-X", category := "Cat", product_name := "Prod",
    my_price := 1, shipping_cost := 1, total_cost := 999,
    min_price_market := 1, min_price_shipping_market := 1,
    rank := 1, rank_with_shipping := 1, competitors_count := 1,
    offers_count := 1, popularity_index := 1, best_offers := [],
    timestamp := 0, price_gap := none, is_winning := false }

/-- A raw item whose `Price` is the negative number -5 and otherwise
well-formed. -/
def mNegPrice : RawMap :=
  [("Sku", JVal.jstr "SKU-N"), ("Category", JVal.jstr "Cat"),
   ("Product", JVal.jstr "Prod"),
   ("Price", JVal.jnum (-5)), ("ShippingCost", JVal.jnum (-1)),
   ("TotalCost", JVal.jnum (-6)), ("MinPrice", JVal.jnum 1),
   ("MinPriceWithShippingCost", JVal.jnum 1),
   ("Rank", JVal.jnum 1), ("RankWithShippingCost", JVal.jnum 1),
   ("NbMerchants", JVal.jnum 1), ("NbOffers", JVal.jnum 1),
   ("Popularity", JVal.jnum 1)]

/-- The record `mNegPrice` constructs to: negative monetary amounts pass. -/
def recNegPrice : ProductRanking :=
  { sku := "SKU-N", category := "Cat", product_name := "Prod",
    my_price := -5, shipping_cost := -1, total_cost := -6,
    min_price_market := 1, min_price_shipping_market := 1,
    rank := 1, rank_with_shipping := 1, competitors_count := 1,
    offers_count := 1, popularity_index := 1, best_offers := [],
    timestamp := 0, price_gap := none, is_winning := false }

/-- A raw item with two offending fields: `Sku` absent and `Price` bound to
a non-numeric string. -/
def mTwoBad : RawMap :=
  [("Category", JVal.jstr "Cat"), ("Product", JVal.jstr "Prod"),
   ("Price", JVal.jstr "abc"), ("ShippingCost", JVal.jnum 0),
   ("TotalCost", JVal.jnum 1), ("MinPrice", JVal.jnum 1),
   ("MinPriceWithShippingCost", JVal.jnum 1),
   ("Rank", JVal.jnum 1), ("RankWithShippingCost", JVal.jnum 1),
   ("NbMerchants", JVal.jnum 1), ("NbOffers", JVal.jnum 1),
   ("Popularity", JVal.jnum 1)]

/-- A batch of 5 raw items in which exactly the third fails validation. -/
def batch5 : List RawMap := [mGood, mGood, mTwoBad, mGood, mGood]

/-- A validated record used for direct enrichment examples: occupies rank 2
with total cost 10 against a market minimum of 8. -/
def baseRec : ProductRanking :=
  { sku := "SKU-B", category := "Cat", product_name := "Prod",
    my_price := 10, shipping_cost := 0, total_cost := 10,
    min_price_market := 8, min_price_shipping_market := 8,
    rank := 2, rank_with_shipping := 2, competitors_count := 3,
    offers_count := 3, popularity_index := 1, best_offers := [],
    timestamp := 0, price_gap := none, is_winning := false }

/-- Non-winning, popularity 1, gap 2 (spec severity: CRITICAL). -/
def recGapTwo : ProductRanking := baseRec

/-- Non-winning, popularity 1, gap 1/2 (spec severity: WARNING). -/
def recGapHalf : ProductRanking :=
  { baseRec with min_price_shipping_market := 19/2 }

/-- Non-winning record whose total cost exceeds the market minimum by
1/250 = 0.004, which rounds to a zero gap. -/
def recTinyGap : ProductRanking :=
  { baseRec with total_cost := 1/250, min_price_shipping_market := 0 }

/-- `Rat.floor` agrees with the floor of the `FloorRing` instance. -/
lemma rat_floor_eq (q : ℚ) : (Rat.floor q : ℤ) = ⌊q⌋ := rfl

/-- Rounding a non-positive rational to two decimals stays non-positive. -/
lemma pyRound2_nonpos {q : ℚ} (hq : q ≤ 0) : pyRound2 q ≤ 0 := by
  have hx : (100 : ℚ) * q ≤ 0 := by linarith
  have hfl : ((⌊(100 : ℚ) * q⌋ : ℤ) : ℚ) ≤ 100 * q := Int.floor_le _
  have hf0 : (⌊(100 : ℚ) * q⌋ : ℤ) ≤ 0 := Int.floor_nonpos hx
  simp only [pyRound2, rat_floor_eq]
  split_ifs with h1 h2 h3
  · exact div_nonpos_iff.mpr (Or.inr ⟨by exact_mod_cast hf0, by norm_num⟩)
  · have hlt : ((⌊(100 : ℚ) * q⌋ : ℤ) : ℚ) < -(1/2) := by linarith
    have hneg : (⌊(100 : ℚ) * q⌋ : ℤ) < 0 := by
      have : ((⌊(100 : ℚ) * q⌋ : ℤ) : ℚ) < 0 := by linarith
      exact_mod_cast this
    have hr : (⌊(100 : ℚ) * q⌋ : ℤ) + 1 ≤ 0 := by omega
    exact div_nonpos_iff.mpr (Or.inr ⟨by exact_mod_cast hr, by norm_num⟩)
  · exact div_nonpos_iff.mpr (Or.inr ⟨by exact_mod_cast hf0, by norm_num⟩)
  · have hle : ((⌊(100 : ℚ) * q⌋ : ℤ) : ℚ) ≤ -(1/2) := by linarith
    have hneg : (⌊(100 : ℚ) * q⌋ : ℤ) < 0 := by
      have : ((⌊(100 : ℚ) * q⌋ : ℤ) : ℚ) < 0 := by linarith
      exact_mod_cast this
    have hr : (⌊(100 : ℚ) * q⌋ : ℤ) + 1 ≤ 0 := by omega
    exact div_nonpos_iff.mpr (Or.inr ⟨by exact_mod_cast hr, by norm_num⟩)

/-- A positive rounded value can only come from a positive argument. -/
lemma pyRound2_pos_imp {q : ℚ} (h : 0 < pyRound2 q) : 0 < q := by
  by_contra hc
  exact absurd (pyRound2_nonpos (not_lt.mp hc)) (not_le.mpr h)

/-- On whole-cent amounts (denominator of `100 * q` is 1) the rounding is
the identity. -/
lemma pyRound2_den_one {q : ℚ} (h : (100 * q).den = 1) : pyRound2 q = q := by
  have hn : (((100 * q).num : ℤ) : ℚ) = 100 * q := (Rat.den_eq_one_iff _).mp h
  simp only [pyRound2, rat_floor_eq]
  rw [← hn, Int.floor_intCast]
  simp only [sub_self]
  rw [if_pos (by norm_num : (0 : ℚ) < 1/2)]
  linarith

/-- A whole-cent difference of whole-cent amounts. -/
lemma den_one_sub {a b : ℚ} (ha : (100 * a).den = 1) (hb : (100 * b).den = 1) :
    (100 * (a - b)).den = 1 := by
  have hna : (((100 * a).num : ℤ) : ℚ) = 100 * a := (Rat.den_eq_one_iff _).mp ha
  have hnb : (((100 * b).num : ℤ) : ℚ) = 100 * b := (Rat.den_eq_one_iff _).mp hb
  have : (100 : ℚ) * (a - b) = (((100 * a).num - (100 * b).num : ℤ) : ℚ) := by
    push_cast
    rw [hna, hnb]
    ring
  rw [this, Rat.den_intCast]

/-- An error-accumulating application that returned a value did so from two
successful components. -/
lemma vapp_ok {α β : Type} {f : Except (List String) (α → β)}
    {a : Except (List String) α} {b : β} (h : vapp f a = Except.ok b) :
    ∃ g x, f = Except.ok g ∧ a = Except.ok x ∧ b = g x := by
  cases f with
  | ok g =>
    cases a with
    | ok x =>
      simp only [vapp] at h
      exact ⟨g, x, rfl, rfl, (Except.ok.inj h).symm⟩
    | error e => simp [vapp] at h
  | error e => cases a <;> simp [vapp] at h

/-- A successfully validated float field was present and numeric in the raw
mapping. -/
lemma parseFloatField_ok {m : RawMap} {k : String} {q : ℚ}
    (h : parseFloatField m k = Except.ok q) :
    getField m k = some (JVal.jnum q) := by
  unfold parseFloatField at h
  cases hg : getField m k with
  | none => rw [hg] at h; simp at h
  | some v => rw [hg] at h; cases v <;> simp_all

/-- A successfully constructed record stores the raw mapping's `Price`,
`ShippingCost` and `TotalCost` numbers verbatim: no reconciliation between
the three happens at construction. -/
lemma parse_ok_money {now : ℕ} {m : RawMap} {p : ProductRanking}
    (h : parseProductRanking now m = Except.ok p) :
    getField m "Price" = some (JVal.jnum p.my_price) ∧
    getField m "ShippingCost" = some (JVal.jnum p.shipping_cost) ∧
    getField m "TotalCost" = some (JVal.jnum p.total_cost) := by
  unfold parseProductRanking at h
  obtain ⟨g14, x14, h14, hx14, hb14⟩ := vapp_ok h
  obtain ⟨g13, x13, h13, hx13, hb13⟩ := vapp_ok h14
  obtain ⟨g12, x12, h12, hx12, hb12⟩ := vapp_ok h13
  obtain ⟨g11, x11, h11, hx11, hb11⟩ := vapp_ok h12
  obtain ⟨g10, x10, h10, hx10, hb10⟩ := vapp_ok h11
  obtain ⟨g9, x9, h9, hx9, hb9⟩ := vapp_ok h10
  obtain ⟨g8, x8, h8, hx8, hb8⟩ := vapp_ok h9
  obtain ⟨g7, x7, h7, hx7, hb7⟩ := vapp_ok h8
  obtain ⟨g6, x6, h6, hx6, hb6⟩ := vapp_ok h7
  obtain ⟨g5, x5, h5, hx5, hb5⟩ := vapp_ok h6
  obtain ⟨g4, x4, h4, hx4, hb4⟩ := vapp_ok h5
  obtain ⟨g3, x3, h3, hx3, hb3⟩ := vapp_ok h4
  obtain ⟨g2, x2, h2, hx2, hb2⟩ := vapp_ok h3
  obtain ⟨g1, x1, h1, hx1, hb1⟩ := vapp_ok h2
  have hg1 := Except.ok.inj h1
  subst hg1 hb1 hb2 hb3 hb4 hb5 hb6 hb7 hb8 hb9 hb10 hb11 hb12 hb13 hb14
  refine ⟨?_, ?_, ?_⟩
  · exact parseFloatField_ok hx4
  · exact parseFloatField_ok hx5
  · exact parseFloatField_ok hx6

/-- `enrich_data` is the element-wise map of the loop body. -/
lemma enrich_data_eq_map (ps : List ProductRanking) :
    enrich_data ps = ps.map enrichOne := by
  induction ps with
  | nil => rfl
  | cons p ps ih => simp [enrich_data, ih]

/-- The loop body is idempotent: re-deriving from an already-enriched
record reads the same source fields. -/
lemma enrichOne_idem (p : ProductRanking) :
    enrichOne (enrichOne p) = enrichOne p := rfl

/-- 100 · 2 is a whole number of cents. -/
lemma den_one_two : ((100 : ℚ) * 2).den = 1 := by
  have h : (100 : ℚ) * 2 = ((200 : ℤ) : ℚ) := by norm_num
  rw [h, Rat.den_intCast]

/-- C1 counterexample: a record whose total cost exceeds the market minimum
by 0.004 gets a rounded `price_gap` of exactly 0, so the gap is not positive
although the record is strictly more expensive than the market best. -/
theorem gap_sign_counterexample :
    (enrichOne recTinyGap).price_gap = some 0 ∧
    recTinyGap.min_price_shipping_market < recTinyGap.total_cost := by
  constructor
  · show some (pyRound2 (recTinyGap.total_cost -
        recTinyGap.min_price_shipping_market)) = some 0
    have h : recTinyGap.total_cost - recTinyGap.min_price_shipping_market
        = 1/250 := by norm_num [recTinyGap, baseRec]
    rw [h]
    simp only [pyRound2, rat_floor_eq]
    norm_num
  · norm_num [recTinyGap, baseRec]

/-- C1: `enrich_data`'s loop body sets `is_winning` to true iff
`rank_with_shipping = 1` and `price_gap` to the two-decimal rounding of
`total_cost - min_price_shipping_market`.  A positive gap implies the
record is more expensive than the market best, and leading or tying implies
a non-positive gap; the converse "positive exactly when more expensive"
additionally needs the two monetary amounts to be whole cents (otherwise a
sub-half-cent excess rounds to a gap of 0). -/
theorem enrich_winning_and_gap (p : ProductRanking) :
    (enrichOne p).is_winning = decide (p.rank_with_shipping = 1) ∧
    (enrichOne p).price_gap
      = some (pyRound2 (p.total_cost - p.min_price_shipping_market)) ∧
    (0 < pyRound2 (p.total_cost - p.min_price_shipping_market) →
      p.min_price_shipping_market < p.total_cost) ∧
    (p.total_cost ≤ p.min_price_shipping_market →
      pyRound2 (p.total_cost - p.min_price_shipping_market) ≤ 0) ∧
    ((100 * p.total_cost).den = 1 →
      (100 * p.min_price_shipping_market).den = 1 →
      (0 < pyRound2 (p.total_cost - p.min_price_shipping_market) ↔
        p.min_price_shipping_market < p.total_cost)) := by
  refine ⟨rfl, rfl, ?_, ?_, ?_⟩
  · intro h
    have := pyRound2_pos_imp h
    linarith
  · intro h
    exact pyRound2_nonpos (by linarith)
  · intro ht hm
    rw [pyRound2_den_one (den_one_sub ht hm)]
    exact sub_pos

/-- C1 witness: the sign iff instantiated at the whole-cent record
`recGapTwo` (total 10 against market best 8). -/
theorem enrich_winning_and_gap_witness :
    0 < pyRound2 (recGapTwo.total_cost - recGapTwo.min_price_shipping_market) ↔
      recGapTwo.min_price_shipping_market < recGapTwo.total_cost :=
  (enrich_winning_and_gap recGapTwo).2.2.2.2
    (by
      have h : (100 : ℚ) * recGapTwo.total_cost = ((1000 : ℤ) : ℚ) := by
        norm_num [recGapTwo, baseRec]
      rw [h, Rat.den_intCast])
    (by
      have h : (100 : ℚ) * recGapTwo.min_price_shipping_market
          = ((800 : ℤ) : ℚ) := by
        norm_num [recGapTwo, baseRec]
      rw [h, Rat.den_intCast])

/-- C2 counterexample: the spec's severity classification separates a gap
of 2 (CRITICAL) from a gap of 1/2 (WARNING), but the engine's only alert
output — the warning-log condition — is identical on the two records; no
`alert_level` is computed by the code. -/
theorem alert_level_counterexample :
    specAlertLevel recGapTwo = AlertLevel.CRITICAL ∧
    specAlertLevel recGapHalf = AlertLevel.WARNING ∧
    logsAlert recGapTwo = true ∧ logsAlert recGapHalf = true := by
  have h2 : pyRound2 (2 : ℚ) = 2 := pyRound2_den_one den_one_two
  have hh : pyRound2 (1/2 : ℚ) = 1/2 := by
    refine pyRound2_den_one ?_
    have h : (100 : ℚ) * (1/2) = ((50 : ℤ) : ℚ) := by norm_num
    rw [h, Rat.den_intCast]
  refine ⟨?_, ?_, rfl, rfl⟩
  · have hgap : recGapTwo.total_cost - recGapTwo.min_price_shipping_market
        = 2 := by norm_num [recGapTwo, baseRec]
    simp only [specAlertLevel, enrichOne, hgap, h2]
    norm_num [recGapTwo, baseRec]
  · have hgap : recGapHalf.total_cost - recGapHalf.min_price_shipping_market
        = 1/2 := by norm_num [recGapHalf, baseRec]
    simp only [specAlertLevel, enrichOne, hgap, hh]
    norm_num [recGapHalf, baseRec]

/-- C2: what the engine actually does about alerts: it emits its warning
log exactly when the enriched record is not winning and `popularity_index`
is at most 3 — independently of `price_gap`, with no severity levels and no
`alert_level` field on the record. -/
theorem alert_log_amended (p : ProductRanking) :
    logsAlert p
      = (!decide (p.rank_with_shipping = 1) && decide (p.popularity_index ≤ 3)) :=
  rfl

/-- C3 counterexample: a raw item claiming `TotalCost = 999` with
`Price = 1` and `ShippingCost = 1` constructs successfully, yielding a
record whose `total_cost` differs from `my_price + shipping_cost`. -/
theorem total_cost_trusted_counterexample :
    parseProductRanking 0 mInconsistent = Except.ok recInconsistent ∧
    recInconsistent.total_cost
      ≠ recInconsistent.my_price + recInconsistent.shipping_cost := by
  refine ⟨rfl, ?_⟩
  norm_num [recInconsistent]

/-- C3: construction stores the source's `Price`, `ShippingCost` and
`TotalCost` numbers verbatim — `total_cost` is accepted as untrusted input,
never recomputed, so it equals `my_price + shipping_cost` only when the
source already satisfied that equation. -/
theorem total_cost_verbatim (now : ℕ) (m : RawMap) (p : ProductRanking)
    (h : parseProductRanking now m = Except.ok p) :
    getField m "TotalCost" = some (JVal.jnum p.total_cost) ∧
    getField m "Price" = some (JVal.jnum p.my_price) ∧
    getField m "ShippingCost" = some (JVal.jnum p.shipping_cost) :=
  ⟨(parse_ok_money h).2.2, (parse_ok_money h).1, (parse_ok_money h).2.1⟩

/-- C3 witness: the verbatim-storage theorem instantiated at the
inconsistent raw item. -/
theorem total_cost_verbatim_witness :
    getField mInconsistent "TotalCost"
      = some (JVal.jnum recInconsistent.total_cost) ∧
    getField mInconsistent "Price"
      = some (JVal.jnum recInconsistent.my_price) ∧
    getField mInconsistent "ShippingCost"
      = some (JVal.jnum recInconsistent.shipping_cost) :=
  total_cost_verbatim 0 mInconsistent recInconsistent rfl

/-- C4 counterexample: a raw item with `Price = -5` and
`ShippingCost = -1` passes validation — the model's float fields carry no
non-negativity constraint. -/
theorem negative_price_accepted_counterexample :
    parseProductRanking 0 mNegPrice = Except.ok recNegPrice ∧
    recNegPrice.my_price < 0 ∧ recNegPrice.shipping_cost < 0 := by
  refine ⟨rfl, ?_, ?_⟩ <;> norm_num [recNegPrice]

/-- C4: construction yields a validated record or fails with an error list
enumerating every offending field (here: a missing `Sku` and a non-numeric
`Price` are both reported); a record can only be produced when `Price` was
present and numeric; but negative monetary values are accepted. -/
theorem construction_validation (now : ℕ) (m : RawMap) (p : ProductRanking) :
    (parseProductRanking now m = Except.ok p →
      getField m "Price" = some (JVal.jnum p.my_price)) ∧
    parseProductRanking 0 mTwoBad
      = Except.error ["Sku: field required", "Price: not a number"] ∧
    parseProductRanking 0 mNegPrice = Except.ok recNegPrice :=
  ⟨fun h => (parse_ok_money h).1, rfl, rfl⟩

/-- C4 witness: the presence/type requirement on `Price` instantiated at
the well-formed item `mGood`. -/
theorem construction_validation_witness :
    getField mGood "Price" = some (JVal.jnum recGood.my_price) :=
  (construction_validation 0 mGood recGood).1 rfl

/-- C5 counterexample: in the 5-item batch `batch5` exactly the third item
fails validation (4 of 5 items are individually constructible), yet
`get_offers_ranking` returns 0 records, not 4: the list comprehension lets
the first `ValidationError` reach the batch-level `except`, which drops the
whole batch. -/
theorem batch_abort_counterexample :
    (get_offers_ranking 0 (Except.ok batch5)).length = 0 ∧
    (batch5.filter (fun m => parseOk 0 m)).length = 4 := by
  exact ⟨rfl, rfl⟩

/-- C5: a validation failure on any item of the batch makes
`get_offers_ranking` return the empty collection — per-item collection of
validation failures does not happen. -/
theorem batch_abort (now : ℕ) (raws : List RawMap) (e : List String)
    (h : parseAll now raws = Except.error e) :
    get_offers_ranking now (Except.ok raws) = [] := by
  simp [get_offers_ranking, h]

/-- C5 witness: the batch-abort theorem instantiated at `batch5`. -/
theorem batch_abort_witness :
    get_offers_ranking 0 (Except.ok batch5) = [] :=
  batch_abort 0 batch5 ["Sku: field required", "Price: not a number"] rfl

/-- C6: `enrich_data` maps the loop body over the batch — same records in
the same order, nothing filtered or inserted — and the loop body changes
only the derived fields: every other field of the record is returned
unchanged. -/
theorem enrich_frame (ps : List ProductRanking) (p : ProductRanking) :
    enrich_data ps = ps.map enrichOne ∧
    (enrichOne p).sku = p.sku ∧
    (enrichOne p).category = p.category ∧
    (enrichOne p).product_name = p.product_name ∧
    (enrichOne p).my_price = p.my_price ∧
    (enrichOne p).shipping_cost = p.shipping_cost ∧
    (enrichOne p).total_cost = p.total_cost ∧
    (enrichOne p).min_price_market = p.min_price_market ∧
    (enrichOne p).min_price_shipping_market = p.min_price_shipping_market ∧
    (enrichOne p).rank = p.rank ∧
    (enrichOne p).rank_with_shipping = p.rank_with_shipping ∧
    (enrichOne p).competitors_count = p.competitors_count ∧
    (enrichOne p).offers_count = p.offers_count ∧
    (enrichOne p).popularity_index = p.popularity_index ∧
    (enrichOne p).best_offers = p.best_offers ∧
    (enrichOne p).timestamp = p.timestamp :=
  ⟨enrich_data_eq_map ps, rfl, rfl, rfl, rfl, rfl, rfl, rfl, rfl, rfl, rfl,
   rfl, rfl, rfl, rfl, rfl⟩

/-- C7: enriching an already-enriched batch changes nothing — the derived
fields are recomputed from unchanged inputs, with no accumulation. -/
theorem enrich_idempotent (ps : List ProductRanking) :
    enrich_data (enrich_data ps) = enrich_data ps := by
  induction ps with
  | nil => rfl
  | cons p ps ih => simp [enrich_data, ih, enrichOne_idem]

/-- C8: when the source adapter cannot reach its backing system (the token
request or the download raises), `get_offers_ranking` returns the empty
collection; as a total function into `List ProductRanking` it propagates no
exception for any fetch outcome. -/
theorem upstream_unavailable_empty (now : ℕ) (e : String) :
    get_offers_ranking now (Except.error e) = [] := rfl

/-- C9: the enrichment stage is a total function on well-formed batches: it
terminates normally on every list of records (the empty one included) and
returns a list of the same length — it has no failing path to model. -/
theorem enrich_total_length (ps : List ProductRanking) :
    (enrich_data ps).length = ps.length ∧
    enrich_data ([] : List ProductRanking) = [] := by
  refine ⟨?_, rfl⟩
  induction ps with
  | nil => rfl
  | cons p ps ih => simp [enrich_data, ih]

/-- C10: a null or absent `BestOffers` value makes `best_offers` the empty
list rather than a validation error: the field-level result is `ok []` in
both cases, and a raw item that is otherwise well-formed constructs
successfully with no offers. -/
theorem best_offers_null_default (m : RawMap) :
    (getField m "BestOffers" = none → parseBestOffersField m = Except.ok []) ∧
    (getField m "BestOffers" = some JVal.jnull →
      parseBestOffersField m = Except.ok []) ∧
    parseProductRanking 0 mBase = Except.ok recNoOffers ∧
    parseProductRanking 0 mNullBest = Except.ok recNoOffers := by
  refine ⟨?_, ?_, rfl, rfl⟩
  · intro h
    simp [parseBestOffersField, h]
  · intro h
    simp [parseBestOffersField, h]

/-- C10 witness: the absent-key case instantiated at `mBase` (which has no
`BestOffers` entry). -/
theorem best_offers_null_default_witness :
    parseBestOffersField mBase = Except.ok [] :=
  (best_offers_null_default mBase).1 rfl

end PriceTracker
